import Mathlib

/-!
Verification of the referral-fraud-detection pipeline.

Shallow embedding of the core logic of the repository:
`src/fraud_check.py` (validity rule engine, source classifier, flag
derivation over a dataframe), `src/time.py` and
`src/timezone_cinversion.py` (identifier normalizer `clean_id`,
local-time converter `to_local`, join assembly).

Python values flowing through the pipeline are modelled explicitly:
missing scalars as `Option`, pandas cells as an inductive `Cell` with an
`na` constructor, dataframes as association lists of named columns, and
a `KeyError` on access to an absent column as `Except.error`.
-/

set_option maxHeartbeats 1600000

namespace RefFraud

/-! ## Validity rule engine (src/fraud_check.py, lines 82-140)

The eleven boolean flag columns computed in `main` feed the row
classifier `check_logic`.  A row of those flags is a `Flags` record.
-/

/-- The eleven per-row boolean flags derived in `main`
(src/fraud_check.py lines 82-116), in source order. -/
structure Flags where
  has_reward : Bool
  is_success : Bool
  is_pending_or_failed : Bool
  has_trans_id : Bool
  is_trans_paid : Bool
  is_trans_new : Bool
  tx_after_ref : Bool
  same_month : Bool
  is_member_active : Bool
  is_account_active : Bool
  is_granted : Bool
deriving DecidableEq

/-- Rule 1, the "perfect" path (src/fraud_check.py lines 121-124). -/
def rule1 (r : Flags) : Bool :=
  r.has_reward && r.is_success && r.has_trans_id &&
  r.is_trans_paid && r.is_trans_new && r.tx_after_ref &&
  r.same_month && r.is_member_active && r.is_account_active &&
  r.is_granted

/-- Rule 2, pending/failed with no reward (line 127). -/
def rule2 (r : Flags) : Bool :=
  r.is_pending_or_failed && !r.has_reward

/-- Rule 3, reward without success (line 130). -/
def rule3 (r : Flags) : Bool :=
  r.has_reward && !r.is_success

/-- Rule 4, reward without transaction (line 131). -/
def rule4 (r : Flags) : Bool :=
  r.has_reward && !r.has_trans_id

/-- Rule 5, paid conversion with no reward (lines 132-133). -/
def rule5 (r : Flags) : Bool :=
  !r.has_reward && r.has_trans_id && r.is_trans_paid && r.tx_after_ref

/-- Rule 6, success without reward (line 134). -/
def rule6 (r : Flags) : Bool :=
  r.is_success && !r.has_reward

/-- Rule 7, transaction before referral (line 135). -/
def rule7 (r : Flags) : Bool :=
  r.has_trans_id && !r.tx_after_ref

/-- `check_logic` (src/fraud_check.py lines 119-137).  The Python early
returns become nested conditionals; the final `return False` (line 137)
is the default-deny branch. -/
def check_logic (r : Flags) : Bool :=
  if rule1 r then true
  else if rule2 r then true
  else if rule3 r then false
  else if rule4 r then false
  else if rule5 r then false
  else if rule6 r then false
  else if rule7 r then false
  else false

/-- Rule `i` (0-indexed) matches row `r`; index 7 is the default rule,
which always matches. -/
def ruleMatches (r : Flags) : Fin 8 → Bool
  | ⟨0, _⟩ => rule1 r
  | ⟨1, _⟩ => rule2 r
  | ⟨2, _⟩ => rule3 r
  | ⟨3, _⟩ => rule4 r
  | ⟨4, _⟩ => rule5 r
  | ⟨5, _⟩ => rule6 r
  | ⟨6, _⟩ => rule7 r
  | ⟨7, _⟩ => true

/-- Verdict attached to each rule: rules 1 and 2 say VALID, rules 3-8
say INVALID. -/
def ruleVerdict (i : Fin 8) : Bool := decide (i.val < 2)

/-- Index of the first rule that matches row `r` (top-to-bottom order of
the decision table). -/
def firstMatch (r : Flags) : Fin 8 :=
  if rule1 r then 0
  else if rule2 r then 1
  else if rule3 r then 2
  else if rule4 r then 3
  else if rule5 r then 4
  else if rule6 r then 5
  else if rule7 r then 6
  else 7

/-- Rule `i` fires on row `r`: it matches and no earlier rule matches. -/
def fires (r : Flags) (i : Fin 8) : Prop :=
  ruleMatches r i = true ∧ ∀ j : Fin 8, j < i → ruleMatches r j = false

/-- C1: the engine evaluates the eight rules top-to-bottom, first match
wins: for every assignment of the eleven flags, `check_logic` is `true`
exactly when the first matching rule is rule 1 or rule 2, and `false`
when the first matching rule is one of rules 3-7 or the default rule 8. -/
theorem check_logic_first_match_wins :
    ∀ (a b c d e f g h i j k : Bool),
      (check_logic ⟨a, b, c, d, e, f, g, h, i, j, k⟩ = true ↔
        (firstMatch ⟨a, b, c, d, e, f, g, h, i, j, k⟩ = 0 ∨
         firstMatch ⟨a, b, c, d, e, f, g, h, i, j, k⟩ = 1)) ∧
      (2 ≤ (firstMatch ⟨a, b, c, d, e, f, g, h, i, j, k⟩).val →
        check_logic ⟨a, b, c, d, e, f, g, h, i, j, k⟩ = false) := by
  decide

/-- Closed witness for C1: a concrete row settles both conjuncts, the
second with its hypothesis discharged. -/
theorem check_logic_first_match_wins_witness :
    check_logic ⟨true, false, false, false, false, false, false, false,
      false, false, false⟩ = false := by
  have h := check_logic_first_match_wins true false false false false false
    false false false false false
  exact h.2 (by decide)

/-! ## String helpers

Python's `sub in s` substring test, `str.strip()` and `str.lower()`,
modelled on character lists. -/

/-- `needle` occurs at the start of `hay`. -/
def isPre : List Char → List Char → Bool
  | [], _ => true
  | _ :: _, [] => false
  | a :: as, b :: bs => a == b && isPre as bs

/-- `needle` occurs somewhere in `hay` (Python `needle in hay`). -/
def containsSub (needle : List Char) : List Char → Bool
  | [] => needle.isEmpty
  | h :: t => isPre needle (h :: t) || containsSub needle t

/-- Python `sub in s` on strings. -/
def pyIn (sub s : String) : Bool := containsSub sub.data s.data

/-- Python `str.lower()` (character-wise, structural so that the kernel
can evaluate it). -/
def lowerStr (s : String) : String := ⟨s.data.map Char.toLower⟩

/-- Python `str.strip()`: drop whitespace from both ends. -/
def pyStrip (s : String) : String :=
  ⟨((s.data.dropWhile Char.isWhitespace).reverse.dropWhile
      Char.isWhitespace).reverse⟩

/-- Python `s.endswith(suf)`. -/
def pyEndsWith (s suf : String) : Bool :=
  isPre suf.data.reverse s.data.reverse

/-- Python `s[:-n]`: drop the last `n` characters. -/
def pyDropRight (s : String) (n : Nat) : String :=
  ⟨s.data.take (s.data.length - n)⟩

/-! ## Identifier normalizer `clean_id`
(src/time.py lines 45-49, identically src/timezone_cinversion.py
lines 47-51)

A raw scalar is `none` (pandas missing, caught by `pd.isna`) or
`some s` where `s` is the Python string form of the value. -/

/-- `clean_id` (src/time.py lines 45-49): missing, `"nan"`, `"null"` and
empty string forms map to the missing marker `pd.NA`; otherwise strip
whitespace and drop a trailing `".0"`. -/
def clean_id (val : Option String) : Option String :=
  match val with
  | none => none
  | some s =>
    if ["nan", "null", ""].contains (lowerStr s) then none
    else
      let v := pyStrip s
      if pyEndsWith v ".0" then some (pyDropRight v 2) else some v

/-- Output of `clean_id` on which a second application is a no-op: a
string already stripped, not a bad literal, and without a trailing
`".0"`. -/
def goodOut (s : String) : Bool :=
  pyStrip s == s && !(["nan", "null", ""].contains (lowerStr s)) &&
    !(pyEndsWith s ".0")

/-- C2 counterexample: `clean_id` is not idempotent.  On input `" "`
(one space) the first application strips to the empty string, and the
second application maps that empty string to the missing marker. -/
theorem clean_id_not_idempotent :
    clean_id (some " ") = some "" ∧
    clean_id (clean_id (some " ")) = none := by
  decide

/-- C2 (amended): `clean_id` is idempotent on every input whose output
is missing or a string that is already stripped, is not a bad literal,
and does not end in `".0"`; and the stated examples hold:
`clean_id "123.0" = "123"`, `clean_id "" = missing`,
`clean_id missing = missing`. -/
theorem clean_id_idempotent_on_clean_outputs :
    ∀ (v : Option String), (clean_id v).all goodOut = true →
      clean_id (clean_id v) = clean_id v ∧
      clean_id (some "123.0") = some "123" ∧
      clean_id (some "") = none ∧ clean_id none = none := by
  intro v h
  refine ⟨?_, by decide, by decide, rfl⟩
  cases hv : clean_id v with
  | none => rfl
  | some t =>
    rw [hv] at h
    have hg : goodOut t = true := h
    simp only [goodOut, Bool.and_eq_true, Bool.not_eq_true',
      beq_iff_eq] at hg
    obtain ⟨⟨h1, h2⟩, h3⟩ := hg
    show clean_id (some t) = some t
    simp only [clean_id, h1, h2, h3]
    simp

/-- Closed witness for the amended C2 at input `" 123.0 "`. -/
theorem clean_id_idempotent_witness :
    clean_id (clean_id (some " 123.0 ")) = clean_id (some " 123.0 ") :=
  (clean_id_idempotent_on_clean_outputs (some " 123.0 ") (by decide)).1

/-- C3 counterexample: the normalized output can be the literal `"NaN"`
(case-insensitively `"nan"`): stripping the `".0"` suffix of `"NaN.0"`
leaves `"NaN"`, which the claimed invariant forbids. -/
theorem clean_id_output_can_be_nan :
    clean_id (some "NaN.0") = some "NaN" ∧
    (lowerStr "NaN" == "nan") = true := by
  decide

/-- C3 (amended): inputs whose string form is missing, `"nan"`,
`"null"` or empty (case-insensitive) are mapped to the missing marker;
but a non-missing output may itself be one of those literals when
stripping or `".0"`-removal produces it. -/
theorem clean_id_missing_on_bad_inputs :
    ∀ (t : String),
      ["nan", "null", ""].contains (lowerStr t) = true →
      clean_id (some t) = none ∧ clean_id none = none := by
  intro t h
  refine ⟨?_, rfl⟩
  simp only [clean_id, h]
  simp

/-- Closed witness for the amended C3 at input `"NULL"`. -/
theorem clean_id_missing_witness :
    clean_id (some "NULL") = none ∧ clean_id none = none :=
  clean_id_missing_on_bad_inputs "NULL" (by decide)

/-! ## Referral source classifier
(src/fraud_check.py lines 19-24, identically src/timezone_cinversion.py
lines 54-58) -/

/-- `get_source_category` (src/fraud_check.py lines 19-24): lower-case
the text, test the Online keyword set, then the Offline set, else
`"Other"`. -/
def get_source_category (source : String) : String :=
  let s := lowerStr source
  if ["user sign up", "app", "web", "online"].any (fun x => pyIn x s)
  then "Online"
  else if ["draft transaction", "lead", "walk"].any (fun x => pyIn x s)
  then "Offline"
  else "Other"

/-- Spec formulation (§4.3): the text contains an Online keyword. -/
def onlineMatch (s : String) : Bool :=
  pyIn "user sign up" (lowerStr s) || pyIn "app" (lowerStr s) ||
  pyIn "web" (lowerStr s) || pyIn "online" (lowerStr s)

/-- Spec formulation (§4.3): the text contains an Offline keyword. -/
def offlineMatch (s : String) : Bool :=
  pyIn "draft transaction" (lowerStr s) || pyIn "lead" (lowerStr s) ||
  pyIn "walk" (lowerStr s)

/-- Spec formulation (§4.3) of the classifier: Online checked before
Offline, default `"Other"`. -/
def sourceCategorySpec (s : String) : String :=
  if onlineMatch s then "Online"
  else if offlineMatch s then "Offline"
  else "Other"

/-- C5: the classifier agrees with the spec's description on every
string — lower-case, return `"Online"` on an Online keyword, else
`"Offline"` on an Offline keyword, else `"Other"` — and a string
matching both keyword sets is classified `"Online"` (tie-break). -/
theorem get_source_category_spec :
    ∀ (s : String), get_source_category s = sourceCategorySpec s ∧
      (onlineMatch s = true → offlineMatch s = true →
        get_source_category s = "Online") := by
  intro s
  have he : get_source_category s = sourceCategorySpec s := by
    simp [get_source_category, sourceCategorySpec, onlineMatch,
      offlineMatch, Bool.or_assoc]
  refine ⟨he, fun hon _ => ?_⟩
  rw [he]
  simp [sourceCategorySpec, hon]

/-- Closed witness for C5 at `"User Sign Up Walk"`, a string matching
both keyword sets; the tie-break conjunct applies with both hypotheses
discharged. -/
theorem get_source_category_spec_witness :
    get_source_category "User Sign Up Walk" = "Online" :=
  (get_source_category_spec "User Sign Up Walk").2 (by decide) (by decide)

/-! ## Status-name flags (src/fraud_check.py lines 83-85)

`df['status_name'].astype(str).str.contains(pat, case=False)` with an
alternation pattern is, for these literal keywords, a case-insensitive
substring test against each keyword. -/

/-- Case-insensitive substring test. -/
def containsCI (s k : String) : Bool :=
  pyIn (lowerStr k) (lowerStr s)

/-- `is_success` on a status-name string (line 83, pattern
`Berhasil|Success`, case-insensitive). -/
def is_success_str (s : String) : Bool :=
  containsCI s "Berhasil" || containsCI s "Success"

/-- `is_pending_or_failed` on a status-name string (lines 84-85,
pattern `Menunggu|Tidak|Fail|Pending`, case-insensitive). -/
def is_pending_or_failed_str (s : String) : Bool :=
  containsCI s "Menunggu" || containsCI s "Tidak" ||
  containsCI s "Fail" || containsCI s "Pending"

/-- C6 counterexample: the two flags are not disjoint.  The status name
`"Tidak Berhasil"` contains the success keyword `"Berhasil"` and the
pending/failed keyword `"Tidak"`, so both flags are true on it. -/
theorem status_flags_not_disjoint :
    is_success_str "Tidak Berhasil" = true ∧
    is_pending_or_failed_str "Tidak Berhasil" = true := by
  decide

/-- C6 (amended): disjointness holds at the keyword level — no keyword
of either family triggers the other family's flag — but a status string
containing keywords from both families sets both flags. -/
theorem status_keyword_families_disjoint :
    (["Berhasil", "Success"].all
      (fun k => !(is_pending_or_failed_str k)) = true) ∧
    (["Menunggu", "Tidak", "Fail", "Pending"].all
      (fun k => !(is_success_str k)) = true) := by
  decide

/-! ## Local-time converter
(src/time.py lines 36-42, identically src/timezone_cinversion.py
lines 38-44) -/

/-- A pandas timestamp: a wall-clock reading in minutes together with
optional zone information, recorded as the zone's UTC offset in minutes
(`none` = naive / `tzinfo is None`). -/
structure PyTs where
  wall : Int
  tzinfo : Option Int
deriving DecidableEq

/-- The pytz zone database: maps recognized zone names to UTC offsets
in minutes.  `pytz.timezone` raises `UnknownTimeZoneError` on any name
outside it. -/
def lookupZone (zones : List (String × Int)) (z : String) : Option Int :=
  match zones.find? (fun p => p.1 == z) with
  | some p => some p.2
  | none => none

/-- `to_local` (src/time.py lines 36-42).  Missing timestamp/timezone
(`pd.isna`) and the literal string `"nan"` return `pd.NaT` (`none`
here).  Otherwise a naive timestamp is localized to UTC, converted with
`astimezone` (new wall clock = old wall clock − old offset + new
offset) and stripped of zone info.  The Python `except` branch — an
unrecognized zone name — returns the possibly UTC-localized timestamp
with zone info stripped, leaving the wall clock unchanged. -/
def to_local (zones : List (String × Int)) (ts : Option PyTs)
    (tz : Option String) : Option PyTs :=
  match ts with
  | none => none
  | some t =>
    match tz with
    | none => none
    | some z =>
      if lowerStr z == "nan" then none
      else
        let t1 : PyTs :=
          if t.tzinfo.isNone then { t with tzinfo := some 0 } else t
        match lookupZone zones z with
        | some off =>
            some { wall := t1.wall - (t1.tzinfo.getD 0) + off,
                   tzinfo := none }
        | none => some { t1 with tzinfo := none }

/-- C4: the local-time converter degrades gracefully instead of
raising: a missing timestamp, a missing timezone, or the literal
timezone string `"nan"` (case-insensitive) yields the missing marker,
and an unrecognized zone name yields the original timestamp with zone
information stripped (wall clock unchanged, no zone annotation). -/
theorem to_local_graceful :
    ∀ (zones : List (String × Int)) (t : PyTs) (z : String),
      to_local zones none (some z) = none ∧
      to_local zones none none = none ∧
      to_local zones (some t) none = none ∧
      (lowerStr z = "nan" →
        to_local zones (some t) (some z) = none) ∧
      (lowerStr z ≠ "nan" → lookupZone zones z = none →
        to_local zones (some t) (some z) = some ⟨t.wall, none⟩) := by
  intro zones t z
  refine ⟨rfl, rfl, rfl, fun h => by simp [to_local, h], fun h hz => ?_⟩
  cases ht : t.tzinfo <;>
    simp [to_local, h, hz, ht]

/-- Closed witness for C4: an unrecognized zone keeps the wall clock
and strips the zone; the `"NaN"` timezone yields missing. -/
theorem to_local_graceful_witness :
    to_local [("asia/jakarta", 420)] (some ⟨600, none⟩)
        (some "Mars/Olympus") = some ⟨600, none⟩ ∧
    to_local [("asia/jakarta", 420)] (some ⟨600, none⟩)
        (some "NaN") = none :=
  ⟨(to_local_graceful [("asia/jakarta", 420)] ⟨600, none⟩
      "Mars/Olympus").2.2.2.2 (by decide) (by decide),
   (to_local_graceful [("asia/jakarta", 420)] ⟨600, none⟩
      "NaN").2.2.2.1 (by decide)⟩

/-! ## Pandas cells, rows, and left merges
(src/time.py lines 99-116, src/fraud_check.py lines 44-71)

A cell is a pandas scalar: missing (`NaN`/`NaT`/`pd.NA`), a string, an
integer, a boolean, or a timestamp.  Timestamps are year, month and
minute-within-month; real timestamp order is exactly the lexicographic
order of those three components, and `.dt.to_period('M')` is the
(year, month) pair.  A row is an association list of named cells; a
lookup of an absent name is the missing value, which models the
NaN-filled right-hand columns of an unmatched left row. -/

/-- A pandas scalar cell. -/
inductive Cell where
  | na : Cell
  | str : String → Cell
  | num : Int → Cell
  | boolean : Bool → Cell
  | time : Int → Int → Int → Cell
deriving DecidableEq

/-- A dataframe row: named cells. -/
abbrev Row := List (String × Cell)

/-- Cell stored under name `k`, missing when the name is absent. -/
def keyCell (r : Row) (k : String) : Cell :=
  match r.find? (fun p => p.1 == k) with
  | some p => p.2
  | none => Cell.na

/-- Join-key equality of two cells: pandas merge semantics, where a
missing key matches nothing (`NaN != NaN`). -/
def joinEq : Cell → Cell → Bool
  | Cell.na, _ => false
  | _, Cell.na => false
  | a, b => a == b

/-- Left merge (`DataFrame.merge(..., how='left')`) of row lists on a
left key name and a right key name: every left row is repeated once per
matching right row, and kept once unmatched.  Matching right rows
contribute their non-key columns; an unmatched left row's right-hand
columns stay absent, i.e. missing under `keyCell`. -/
def leftMerge (l r : List Row) (lk rk : String) : List Row :=
  l.flatMap (fun lr =>
    let ms := r.filter (fun rr => joinEq (keyCell lr lk) (keyCell rr rk))
    if ms.isEmpty then [lr]
    else ms.map (fun rr => lr ++ rr.filter (fun p => !(p.1 == rk))))

/-- `drop_duplicates(subset=[k])`: keep the first row for each key
value (missing keys compare equal to each other here, unlike in a
merge).  `seen` accumulates the key cells already kept. -/
def dropDupOn : List Row → String → List Cell → List Row
  | [], _, _ => []
  | r :: rest, k, seen =>
      if seen.contains (keyCell r k) then dropDupOn rest k seen
      else r :: dropDupOn rest k (keyCell r k :: seen)

/-- `rows.drop_duplicates(subset=[k])`. -/
def dropDup (rows : List Row) (k : String) : List Row :=
  dropDupOn rows k []

/-- No two rows of `rows` share a non-missing value of key `k`. -/
def keyDistinctB (rows : List Row) (k : String) : Bool :=
  match rows with
  | [] => true
  | r :: rest =>
      rest.all (fun r2 =>
        keyCell r k == Cell.na || !(keyCell r k == keyCell r2 k)) &&
      keyDistinctB rest k

/-- The timezone map (src/time.py lines 99-100):
`users.dropna(subset=['user_id']).drop_duplicates(subset=['user_id'])`.
The projection to the four used columns does not affect row counts and
is not modelled. -/
def mkTzMap (users : List Row) : List Row :=
  dropDup (users.filter (fun r => !(keyCell r "user_id" == Cell.na)))
    "user_id"

/-- Join 1 (src/time.py line 103): referrals ⋈ timezone map on
`referrer_id` = `user_id`. -/
def mergeReferrer (ref users : List Row) : List Row :=
  leftMerge ref (mkTzMap users) "referrer_id" "user_id"

/-- Join 2 (src/time.py line 108): result ⋈ timezone map on
`referee_id` = `user_id`. -/
def mergeReferee (ref users : List Row) : List Row :=
  leftMerge ref (mkTzMap users) "referee_id" "user_id"

/-- Join 3 (src/time.py line 116): result ⋈ transactions on
`transaction_id`; the right side is not deduplicated. -/
def mergeTransactions (ref trans : List Row) : List Row :=
  leftMerge ref trans "transaction_id" "transaction_id"

/-- Status join (src/fraud_check.py line 51): result ⋈ statuses on
`user_referral_status_id`; the right side is not deduplicated. -/
def mergeStatuses (df statuses : List Row) : List Row :=
  leftMerge df statuses "user_referral_status_id" "user_referral_status_id"

/-- Reward join (src/fraud_check.py lines 70-71): the reward table is
deduplicated on the join key `k` before the left merge ("Drop
duplicates in rewards to avoid row explosion"). -/
def mergeRewards (df rewards : List Row) (k : String) : List Row :=
  leftMerge df (dropDup rewards k) k k

/-- Unfolding of `joinEq` as a proposition. -/
lemma joinEq_eq_true_iff (a b : Cell) :
    joinEq a b = true ↔ a ≠ Cell.na ∧ b ≠ Cell.na ∧ a = b := by
  cases a <;> cases b <;> simp [joinEq]

/-- Under per-key uniqueness of the right side, each left row has at
most one merge partner. -/
lemma filter_joinEq_length_le_one (rows : List Row) (k : String)
    (c : Cell) (h : keyDistinctB rows k = true) :
    (rows.filter (fun rr => joinEq c (keyCell rr k))).length ≤ 1 := by
  induction rows with
  | nil => simp
  | cons r rest ih =>
    simp only [keyDistinctB, Bool.and_eq_true, List.all_eq_true] at h
    obtain ⟨hall, hrest⟩ := h
    by_cases hr : joinEq c (keyCell r k) = true
    · obtain ⟨hc, hk, hceq⟩ := (joinEq_eq_true_iff _ _).mp hr
      have hzero :
          (rest.filter (fun rr => joinEq c (keyCell rr k))).length = 0 := by
        rw [List.length_eq_zero, List.filter_eq_nil_iff]
        intro r2 hr2
        intro hj2
        obtain ⟨_, hk2, hceq2⟩ := (joinEq_eq_true_iff _ _).mp hj2
        have := hall r2 hr2
        simp only [Bool.or_eq_true, Bool.not_eq_true', beq_iff_eq,
          beq_eq_false_iff_ne] at this
        rcases this with hna | hne
        · exact hk hna
        · exact hne (hceq.symm.trans hceq2)
      simp [List.filter_cons, hr, hzero]
    · simp only [List.filter_cons, hr]
      simpa using ih hrest

/-- Rows kept by `dropDupOn` never carry a key already in `seen`. -/
lemma dropDupOn_key_not_seen (rows : List Row) (k : String)
    (seen : List Cell) (r2 : Row)
    (h : r2 ∈ dropDupOn rows k seen) :
    seen.contains (keyCell r2 k) = false := by
  induction rows generalizing seen with
  | nil => simp [dropDupOn] at h
  | cons r rest ih =>
    simp only [dropDupOn] at h
    by_cases hc : seen.contains (keyCell r k) = true
    · rw [if_pos hc] at h
      exact ih seen h
    · rw [if_neg hc] at h
      rcases List.mem_cons.mp h with rfl | hmem
      · exact Bool.eq_false_iff.mpr hc
      · have := ih (keyCell r k :: seen) hmem
        simp only [List.contains_cons, Bool.or_eq_false_iff] at this
        exact this.2

/-- `dropDupOn` leaves at most one row per non-missing key value. -/
lemma keyDistinctB_dropDupOn (rows : List Row) (k : String)
    (seen : List Cell) :
    keyDistinctB (dropDupOn rows k seen) k = true := by
  induction rows generalizing seen with
  | nil => simp [dropDupOn, keyDistinctB]
  | cons r rest ih =>
    simp only [dropDupOn]
    by_cases hc : seen.contains (keyCell r k) = true
    · rw [if_pos hc]; exact ih seen
    · rw [if_neg hc]
      simp only [keyDistinctB, Bool.and_eq_true, List.all_eq_true]
      refine ⟨?_, ih (keyCell r k :: seen)⟩
      intro r2 hr2
      have := dropDupOn_key_not_seen rest k (keyCell r k :: seen) r2 hr2
      simp only [List.contains_cons, Bool.or_eq_false_iff] at this
      have hne : (keyCell r k == keyCell r2 k) = false := by
        have h1 := this.1
        rw [beq_eq_false_iff_ne] at h1 ⊢
        exact fun he => h1 he.symm
      simp [hne]

/-- A left merge against a right side with at most one row per
non-missing key preserves the left side's row count. -/
lemma leftMerge_length (l r : List Row) (lk rk : String)
    (h : keyDistinctB r rk = true) :
    (leftMerge l r lk rk).length = l.length := by
  induction l with
  | nil => rfl
  | cons lr rest ih =>
    have hle := filter_joinEq_length_le_one r rk (keyCell lr lk) h
    simp only [leftMerge, List.flatMap_cons, List.length_append,
      List.length_cons]
    simp only [leftMerge] at ih
    rw [ih]
    have hblock :
        (if (r.filter
              (fun rr => joinEq (keyCell lr lk) (keyCell rr rk))).isEmpty
          then [lr]
          else (r.filter
              (fun rr => joinEq (keyCell lr lk) (keyCell rr rk))).map
            (fun rr => lr ++ rr.filter (fun p => !(p.1 == rk)))).length
          = 1 := by
      cases hm : r.filter (fun rr => joinEq (keyCell lr lk) (keyCell rr rk))
        with
      | nil => simp
      | cons x t =>
        have ht : t = [] := by
          rw [hm] at hle
          simp only [List.length_cons] at hle
          exact List.length_eq_zero.mp (Nat.le_zero.mp (Nat.le_of_succ_le_succ hle))
        subst ht
        simp [List.isEmpty]
    rw [hblock]
    omega

/-- C9 counterexample: the transaction join (src/time.py line 116) does
not deduplicate its right side, so a transaction table with two rows
sharing `transaction_id` `"T1"` turns a one-row referral table into two
rows — a join of the Join Assembler that does not preserve the left
side's row count. -/
theorem transaction_join_duplicates_rows :
    (mergeTransactions [[("transaction_id", Cell.str "T1")]]
        [[("transaction_id", Cell.str "T1"),
          ("transaction_status", Cell.str "Paid")],
         [("transaction_id", Cell.str "T1"),
          ("transaction_status", Cell.str "Failed")]]).length = 2 ∧
      ([[("transaction_id", Cell.str "T1")]] : List Row).length = 1 := by
  decide

/-- C9 (amended): the two user joins and the reward join preserve the
left side's row count for every input — their right sides are
deduplicated on the join key first, so in particular a reward table
with duplicate join keys cannot multiply referral rows — while the
transaction join and the status join preserve it only when their right
tables carry at most one row per non-missing join key. -/
theorem join_assembler_rowcounts :
    ∀ (ref users trans statuses rewards : List Row) (k : String),
      (mergeReferrer ref users).length = ref.length ∧
      (mergeReferee ref users).length = ref.length ∧
      (mergeRewards ref rewards k).length = ref.length ∧
      (keyDistinctB trans "transaction_id" = true →
        (mergeTransactions ref trans).length = ref.length) ∧
      (keyDistinctB statuses "user_referral_status_id" = true →
        (mergeStatuses ref statuses).length = ref.length) := by
  intro ref users trans statuses rewards k
  exact ⟨leftMerge_length _ _ _ _ (keyDistinctB_dropDupOn _ _ []),
         leftMerge_length _ _ _ _ (keyDistinctB_dropDupOn _ _ []),
         leftMerge_length _ _ _ _ (keyDistinctB_dropDupOn _ _ []),
         fun h => leftMerge_length _ _ _ _ h,
         fun h => leftMerge_length _ _ _ _ h⟩

/-- Closed witness for the amended C9: a duplicate-free transaction
table and a reward table with a duplicated key both leave a one-row
referral table at one row. -/
theorem join_assembler_rowcounts_witness :
    (mergeTransactions [[("transaction_id", Cell.str "T1")]]
        [[("transaction_id", Cell.str "T1"),
          ("transaction_status", Cell.str "Paid")]]).length = 1 ∧
    (mergeRewards [[("referral_id", Cell.str "R1")]]
        [[("referral_id", Cell.str "R1"), ("reward_value", Cell.num 50)],
         [("referral_id", Cell.str "R1"), ("reward_value", Cell.num 70)]]
        "referral_id").length = 1 :=
  ⟨(join_assembler_rowcounts [[("transaction_id", Cell.str "T1")]] []
      [[("transaction_id", Cell.str "T1"),
        ("transaction_status", Cell.str "Paid")]] [] []
      "referral_id").2.2.2.1 (by decide),
   (join_assembler_rowcounts [[("referral_id", Cell.str "R1")]] [] [] []
      [[("referral_id", Cell.str "R1"), ("reward_value", Cell.num 50)],
       [("referral_id", Cell.str "R1"), ("reward_value", Cell.num 70)]]
      "referral_id").2.2.1⟩

/-! ## Flag derivation over the joined dataframe
(src/fraud_check.py lines 54-55 and 73-116)

A dataframe is an association list of named columns, first occurrence
winning, mirroring pandas' unique column labels.  `df['c']` on an
absent column raises `KeyError` (`Except.error`); `'c' in df.columns`
is `hasCol`; `df['c'] = v` is `setCol`.  Date parsing by
`pd.to_datetime(..., errors='coerce')` is modelled on typed cells:
timestamp cells pass through and every other cell coerces to `NaT`
(string-to-date parsing itself is outside the model; none of the
claims depends on it). -/

/-- Columns of a dataframe. -/
abbrev Df := List (String × List Cell)

/-- `'c' in df.columns`. -/
def hasCol (df : Df) (c : String) : Bool := df.any (fun p => p.1 == c)

/-- `df['c']` read: `KeyError` when the column is absent. -/
def getCol (df : Df) (c : String) : Except String (List Cell) :=
  match df.find? (fun p => p.1 == c) with
  | some p => Except.ok p.2
  | none => Except.error ("KeyError: " ++ c)

/-- `df['c'] = v`: replace the column in place, or append it. -/
def setCol : Df → String → List Cell → Df
  | [], c, v => [(c, v)]
  | p :: rest, c, v =>
      if p.1 == c then (c, v) :: rest else p :: setCol rest c v

/-- Row count of the dataframe (length of its first column). -/
def nRows (df : Df) : Nat :=
  match df with
  | [] => 0
  | p :: _ => p.2.length

/-- Cell-wise transformation of one column, when present. -/
def mapCol (df : Df) (c : String) (f : Cell → Cell) : Df :=
  df.map (fun p => if p.1 == c then (p.1, p.2.map f) else p)

/-- Lines 78-79: `if col in df.columns:
df[col] = pd.to_datetime(df[col], errors='coerce')`. -/
def toDT (c : Cell) : Cell :=
  match c with
  | Cell.time y m r => Cell.time y m r
  | _ => Cell.na

/-- Guarded date conversion of one column. -/
def dtCol (df : Df) (c : String) : Df :=
  if hasCol df c then mapCol df c toDT else df

/-- `pd.notna` on a cell. -/
def notna (c : Cell) : Bool := !(c == Cell.na)

/-- Python `str()` of a pandas scalar, as produced by `.astype(str)`:
missing renders as `"nan"`, booleans as `"True"`/`"False"`; the exact
rendering of timestamps is irrelevant to every comparison made with it
and is kept opaque. -/
def pyStr : Cell → String
  | Cell.na => "nan"
  | Cell.str s => s
  | Cell.num n => toString n
  | Cell.boolean true => "True"
  | Cell.boolean false => "False"
  | Cell.time _ _ _ => "Timestamp"

/-- Python `str.upper()`. -/
def upperStr (s : String) : String := ⟨s.data.map Char.toUpper⟩

/-- `fillna(0)` on a cell (line 75). -/
def fillZero (c : Cell) : Cell :=
  match c with
  | Cell.na => Cell.num 0
  | c => c

/-- `> 0` on a reward-value cell (line 82); non-numeric compares
false. -/
def gtZero (c : Cell) : Bool :=
  match c with
  | Cell.num n => decide (0 < n)
  | _ => false

/-- `>=` between two timestamp cells (lines 90 and 102): lexicographic
on (year, month, minute); any missing side compares false, which is
pandas' `NaT >= x`. -/
def geCell : Cell → Cell → Bool
  | Cell.time y1 m1 r1, Cell.time y2 m2 r2 =>
      decide (y2 < y1) ||
        (y1 == y2 && (decide (m2 < m1) || (m1 == m2 && decide (r2 ≤ r1))))
  | _, _ => false

/-- `.dt.to_period('M')` equality of two timestamp cells
(lines 96-97). -/
def sameMonthCell : Cell → Cell → Bool
  | Cell.time y1 m1 _, Cell.time y2 m2 _ => y1 == y2 && m1 == m2
  | _, _ => false

/-- Lines 54-55: default the `status_name` column to `"Unknown"` when
the status merge did not produce it. -/
def ensureStatusName (df : Df) : Df :=
  if hasCol df "status_name" then df
  else setCol df "status_name" (List.replicate (nRows df) (Cell.str "Unknown"))

/-- Line 74: default the `reward_value` column to `0` when the reward
merge did not produce it. -/
def ensureRewardValue (df : Df) : Df :=
  if hasCol df "reward_value" then df
  else setCol df "reward_value" (List.replicate (nRows df) (Cell.num 0))

/-- The guarded-flag pattern of lines 100-116: derive `dst` from `src`
cell-wise when `src` exists, else fill `dst` with a constant
default. -/
def guardedFlag (df : Df) (src dst : String) (f : Cell → Cell)
    (dflt : Cell) : Except String Df :=
  if hasCol df src then do
    let xs ← getCol df src
    pure (setCol df dst (xs.map f))
  else pure (setCol df dst (List.replicate (nRows df) dflt))

/-- The flag-derivation stage of `main` (src/fraud_check.py lines
54-55 and 73-116), with the reference date `now` injected
(`pd.Timestamp.now().normalize()`, line 100).  Each `←` on `getCol` is
an unguarded `df[...]` read of the Python code and raises `KeyError`
when the column is absent. -/
def deriveFlags (now : Cell) (df0 : Df) : Except String Df := do
  let df := ensureRewardValue (ensureStatusName df0)
  let rv ← getCol df "reward_value"
  let df := setCol df "reward_value" (rv.map fillZero)
  let df := dtCol (dtCol (dtCol df "referral_at_local")
    "transaction_at_local") "referrer_expiry"
  let rv2 ← getCol df "reward_value"
  let df := setCol df "has_reward"
    (rv2.map (fun c => Cell.boolean (gtZero c)))
  let sn ← getCol df "status_name"
  let df := setCol df "is_success"
    (sn.map (fun c => Cell.boolean (is_success_str (pyStr c))))
  let df := setCol df "is_pending_or_failed"
    (sn.map (fun c => Cell.boolean (is_pending_or_failed_str (pyStr c))))
  let tid ← getCol df "transaction_id"
  let df := setCol df "has_trans_id"
    (tid.map (fun c => Cell.boolean (notna c && !(pyStr c == "nan"))))
  let tst ← getCol df "transaction_status"
  let df := setCol df "is_trans_paid"
    (tst.map (fun c => Cell.boolean (upperStr (pyStr c) == "PAID")))
  let tty ← getCol df "transaction_type"
  let df := setCol df "is_trans_new"
    (tty.map (fun c => Cell.boolean (upperStr (pyStr c) == "NEW")))
  let tal ← getCol df "transaction_at_local"
  let ral ← getCol df "referral_at_local"
  let df := setCol df "tx_after_ref"
    (List.zipWith (fun a b => Cell.boolean (geCell a b)) tal ral)
  let df := setCol df "same_month"
    (List.zipWith
      (fun a b => Cell.boolean (notna a && notna b && sameMonthCell a b))
      tal ral)
  let df ← guardedFlag df "referrer_expiry" "is_member_active"
    (fun c => Cell.boolean (geCell c now)) (Cell.boolean false)
  let df ← guardedFlag df "referrer_deleted" "is_account_active"
    (fun c => Cell.boolean ((c == Cell.boolean false) ||
      (lowerStr (pyStr c) == "false"))) (Cell.boolean true)
  let df ← guardedFlag df "is_reward_granted" "is_granted"
    (fun c => Cell.boolean ((c == Cell.boolean true) ||
      (lowerStr (pyStr c) == "true"))) (Cell.boolean false)
  pure df

/-- Binding a successful `Except` computation runs the
continuation. -/
lemma ok_bind {α β : Type} (a : α) (f : α → Except String β) :
    (Except.ok a >>= f) = f a := rfl

/-- Binding a failed `Except` computation propagates the error. -/
lemma error_bind {α β : Type} (e : String) (f : α → Except String β) :
    ((Except.error e : Except String α) >>= f) = Except.error e := rfl

/-- Column presence after an assignment. -/
lemma hasCol_setCol (df : Df) (c d : String) (v : List Cell) :
    hasCol (setCol df c v) d = (c == d || hasCol df d) := by
  induction df with
  | nil => simp [setCol, hasCol]
  | cons p rest ih =>
    simp only [setCol]
    by_cases h : (p.1 == c) = true
    · rw [if_pos h]
      have hp : p.1 = c := beq_iff_eq.mp h
      simp only [hasCol, List.any_cons, hp]
      cases hc : (c == d) <;> simp [hasCol]
    · rw [if_neg h]
      simp only [hasCol, List.any_cons] at *
      rw [ih]
      cases (p.1 == d) <;> cases (c == d) <;> simp

/-- Reading back the column just assigned. -/
lemma getCol_setCol_self (df : Df) (c : String) (v : List Cell) :
    getCol (setCol df c v) c = Except.ok v := by
  induction df with
  | nil => simp [setCol, getCol, List.find?_cons_of_pos]
  | cons p rest ih =>
    simp only [setCol]
    by_cases h : (p.1 == c) = true
    · rw [if_pos h]
      simp [getCol, List.find?_cons_of_pos]
    · rw [if_neg h]
      simp only [getCol] at ih ⊢
      rw [List.find?_cons_of_neg]
      · exact ih
      · simpa using h

/-- Assigning one column leaves reads of the others unchanged. -/
lemma getCol_setCol_ne (df : Df) (c d : String) (v : List Cell)
    (hcd : (c == d) = false) :
    getCol (setCol df c v) d = getCol df d := by
  induction df with
  | nil =>
    simp only [setCol, getCol]
    rw [List.find?_cons_of_neg _ (by simpa using hcd)]
  | cons p rest ih =>
    simp only [setCol]
    by_cases h : (p.1 == c) = true
    · rw [if_pos h]
      have hp : p.1 = c := beq_iff_eq.mp h
      simp only [getCol]
      rw [List.find?_cons_of_neg, List.find?_cons_of_neg]
      · simp [hp, hcd]
      · simpa using hcd
    · rw [if_neg h]
      by_cases hd : (p.1 == d) = true
      · simp only [getCol]
        rw [List.find?_cons_of_pos, List.find?_cons_of_pos] <;>
          simpa using hd
      · simp only [getCol] at ih ⊢
        rw [List.find?_cons_of_neg, List.find?_cons_of_neg]
        · exact ih
        · simpa using hd
        · simpa using hd

/-- A present column reads back successfully. -/
lemma getCol_ok_of_hasCol (df : Df) (c : String)
    (h : hasCol df c = true) : ∃ v, getCol df c = Except.ok v := by
  induction df with
  | nil => simp [hasCol] at h
  | cons p rest ih =>
    by_cases hp : (p.1 == c) = true
    · refine ⟨p.2, ?_⟩
      simp only [getCol]
      rw [List.find?_cons_of_pos]
      simpa using hp
    · have h' : hasCol rest c = true := by
        simpa [hasCol, List.any_cons, hp] using h
      obtain ⟨v, hv⟩ := ih h'
      refine ⟨v, ?_⟩
      simp only [getCol] at hv ⊢
      rw [List.find?_cons_of_neg]
      · exact hv
      · simpa using hp

/-- An absent column raises `KeyError`. -/
lemma getCol_error_of_not_hasCol (df : Df) (c : String)
    (h : hasCol df c = false) :
    getCol df c = Except.error ("KeyError: " ++ c) := by
  induction df with
  | nil => rfl
  | cons p rest ih =>
    simp only [hasCol, List.any_cons, Bool.or_eq_false_iff] at h
    simp only [getCol] at ih ⊢
    rw [List.find?_cons_of_neg]
    · exact ih (by simpa [hasCol] using h.2)
    · simpa using h.1

/-- Cell-wise column transformation leaves column names unchanged. -/
lemma hasCol_mapCol (df : Df) (c d : String) (f : Cell → Cell) :
    hasCol (mapCol df c f) d = hasCol df d := by
  induction df with
  | nil => rfl
  | cons p rest ih =>
    simp only [mapCol, hasCol, List.map_cons, List.any_cons] at ih ⊢
    rw [ih]
    by_cases hp : (p.1 == c) = true <;> simp [hp]

/-- Date conversion of a column leaves column names unchanged. -/
lemma hasCol_dtCol (df : Df) (c d : String) :
    hasCol (dtCol df c) d = hasCol df d := by
  unfold dtCol
  split
  · exact hasCol_mapCol df c d toDT
  · rfl

/-- `ensureStatusName` makes `status_name` present. -/
lemma hasCol_ensureStatusName_self (df : Df) :
    hasCol (ensureStatusName df) "status_name" = true := by
  unfold ensureStatusName
  by_cases h : hasCol df "status_name" = true
  · rw [if_pos h]; exact h
  · rw [if_neg h, hasCol_setCol]; rfl

/-- `ensureStatusName` does not affect other columns' presence. -/
lemma hasCol_ensureStatusName_ne (df : Df) (d : String)
    (hd : (("status_name" : String) == d) = false) :
    hasCol (ensureStatusName df) d = hasCol df d := by
  unfold ensureStatusName
  by_cases h : hasCol df "status_name" = true
  · rw [if_pos h]
  · rw [if_neg h, hasCol_setCol, hd]; simp

/-- `ensureRewardValue` makes `reward_value` present. -/
lemma hasCol_ensureRewardValue_self (df : Df) :
    hasCol (ensureRewardValue df) "reward_value" = true := by
  unfold ensureRewardValue
  by_cases h : hasCol df "reward_value" = true
  · rw [if_pos h]; exact h
  · rw [if_neg h, hasCol_setCol]; rfl

/-- `ensureRewardValue` does not affect other columns' presence. -/
lemma hasCol_ensureRewardValue_ne (df : Df) (d : String)
    (hd : (("reward_value" : String) == d) = false) :
    hasCol (ensureRewardValue df) d = hasCol df d := by
  unfold ensureRewardValue
  by_cases h : hasCol df "reward_value" = true
  · rw [if_pos h]
  · rw [if_neg h, hasCol_setCol, hd]; simp

/-- A guarded flag derivation never fails: either branch only assigns
a new column. -/
lemma guardedFlag_ok (df : Df) (src dst : String) (f : Cell → Cell)
    (dflt : Cell) :
    ∃ df2, guardedFlag df src dst f dflt = Except.ok df2 := by
  unfold guardedFlag
  by_cases h : hasCol df src = true
  · obtain ⟨v, hv⟩ := getCol_ok_of_hasCol df src h
    exact ⟨setCol df dst (v.map f), by rw [if_pos h, hv]; rfl⟩
  · exact ⟨setCol df dst (List.replicate (nRows df) dflt),
      by rw [if_neg h]; rfl⟩

/-- With the five unconditionally-read columns present, every `df[...]`
read of the flag-derivation stage succeeds, so the stage returns a
dataframe. -/
lemma deriveFlags_ok (now : Cell) (df : Df)
    (h1 : hasCol df "transaction_id" = true)
    (h2 : hasCol df "transaction_status" = true)
    (h3 : hasCol df "transaction_type" = true)
    (h4 : hasCol df "transaction_at_local" = true)
    (h5 : hasCol df "referral_at_local" = true) :
    ∃ r, deriveFlags now df = Except.ok r := by
  simp only [deriveFlags]
  set B := ensureRewardValue (ensureStatusName df) with hB
  have hB_rv : hasCol B "reward_value" = true := by
    rw [hB]; exact hasCol_ensureRewardValue_self _
  have hB_sn : hasCol B "status_name" = true := by
    rw [hB, hasCol_ensureRewardValue_ne _ _ (by decide)]
    exact hasCol_ensureStatusName_self _
  have hBof : ∀ d : String, (("reward_value" : String) == d) = false →
      (("status_name" : String) == d) = false →
      hasCol B d = hasCol df d := by
    intro d hrd hsd
    rw [hB, hasCol_ensureRewardValue_ne _ _ hrd,
      hasCol_ensureStatusName_ne _ _ hsd]
  obtain ⟨rv, hrv⟩ := getCol_ok_of_hasCol _ _ hB_rv
  rw [hrv]
  simp only [ok_bind]
  set C := setCol B "reward_value" (List.map fillZero rv) with hC
  set D := dtCol (dtCol (dtCol C "referral_at_local")
    "transaction_at_local") "referrer_expiry" with hD
  have hD_eq : ∀ d : String,
      hasCol D d = (("reward_value" : String) == d || hasCol B d) := by
    intro d
    rw [hD, hasCol_dtCol, hasCol_dtCol, hasCol_dtCol, hC, hasCol_setCol]
  have hD_rv : hasCol D "reward_value" = true := by
    rw [hD_eq, hB_rv]; simp
  obtain ⟨rv2, hrv2⟩ := getCol_ok_of_hasCol _ _ hD_rv
  rw [hrv2]
  simp only [ok_bind]
  set E := setCol D "has_reward"
    (List.map (fun c => Cell.boolean (gtZero c)) rv2) with hE
  have hE_sn : hasCol E "status_name" = true := by
    rw [hE, hasCol_setCol, hD_eq, hB_sn]; simp
  obtain ⟨sn, hsn⟩ := getCol_ok_of_hasCol _ _ hE_sn
  rw [hsn]
  simp only [ok_bind]
  set F := setCol E "is_success"
    (List.map (fun c => Cell.boolean (is_success_str (pyStr c))) sn)
    with hF
  set G := setCol F "is_pending_or_failed"
    (List.map (fun c => Cell.boolean (is_pending_or_failed_str (pyStr c)))
      sn) with hG
  have hG_eq : ∀ d : String, hasCol G d =
      (("is_pending_or_failed" : String) == d ||
        (("is_success" : String) == d ||
          (("has_reward" : String) == d || hasCol D d))) := by
    intro d
    rw [hG, hasCol_setCol, hF, hasCol_setCol, hE, hasCol_setCol]
  have hG_tid : hasCol G "transaction_id" = true := by
    rw [hG_eq, hD_eq, hBof _ (by decide) (by decide), h1]; simp
  obtain ⟨tid, htid⟩ := getCol_ok_of_hasCol _ _ hG_tid
  rw [htid]
  simp only [ok_bind]
  set H1 := setCol G "has_trans_id"
    (List.map (fun c => Cell.boolean (notna c && !(pyStr c == "nan")))
      tid) with hH1
  have hH1_tst : hasCol H1 "transaction_status" = true := by
    rw [hH1, hasCol_setCol, hG_eq, hD_eq, hBof _ (by decide) (by decide),
      h2]
    simp
  obtain ⟨tst, htst⟩ := getCol_ok_of_hasCol _ _ hH1_tst
  rw [htst]
  simp only [ok_bind]
  set H2 := setCol H1 "is_trans_paid"
    (List.map (fun c => Cell.boolean (upperStr (pyStr c) == "PAID")) tst)
    with hH2
  have hH2_tty : hasCol H2 "transaction_type" = true := by
    rw [hH2, hasCol_setCol, hH1, hasCol_setCol, hG_eq, hD_eq,
      hBof _ (by decide) (by decide), h3]
    simp
  obtain ⟨tty, htty⟩ := getCol_ok_of_hasCol _ _ hH2_tty
  rw [htty]
  simp only [ok_bind]
  set H3 := setCol H2 "is_trans_new"
    (List.map (fun c => Cell.boolean (upperStr (pyStr c) == "NEW")) tty)
    with hH3
  have hH3_tal : hasCol H3 "transaction_at_local" = true := by
    rw [hH3, hasCol_setCol, hH2, hasCol_setCol, hH1, hasCol_setCol,
      hG_eq, hD_eq, hBof _ (by decide) (by decide), h4]
    simp
  obtain ⟨tal, htal⟩ := getCol_ok_of_hasCol _ _ hH3_tal
  rw [htal]
  simp only [ok_bind]
  have hH3_ral : hasCol H3 "referral_at_local" = true := by
    rw [hH3, hasCol_setCol, hH2, hasCol_setCol, hH1, hasCol_setCol,
      hG_eq, hD_eq, hBof _ (by decide) (by decide), h5]
    simp
  obtain ⟨ral, hral⟩ := getCol_ok_of_hasCol _ _ hH3_ral
  rw [hral]
  simp only [ok_bind]
  obtain ⟨K1, hK1⟩ := guardedFlag_ok
    (setCol (setCol H3 "tx_after_ref"
        (List.zipWith (fun a b => Cell.boolean (geCell a b)) tal ral))
      "same_month"
      (List.zipWith
        (fun a b =>
          Cell.boolean (notna a && notna b && sameMonthCell a b))
        tal ral))
    "referrer_expiry" "is_member_active"
    (fun c => Cell.boolean (geCell c now)) (Cell.boolean false)
  rw [hK1]
  simp only [ok_bind]
  obtain ⟨K2, hK2⟩ := guardedFlag_ok K1 "referrer_deleted"
    "is_account_active"
    (fun c => Cell.boolean ((c == Cell.boolean false) ||
      (lowerStr (pyStr c) == "false"))) (Cell.boolean true)
  rw [hK2]
  simp only [ok_bind]
  obtain ⟨K3, hK3⟩ := guardedFlag_ok K2 "is_reward_granted" "is_granted"
    (fun c => Cell.boolean ((c == Cell.boolean true) ||
      (lowerStr (pyStr c) == "true"))) (Cell.boolean false)
  rw [hK3]
  simp only [ok_bind]
  exact ⟨K3, rfl⟩

/-- A guarded flag derivation whose source column is absent fills the
derived column with its constant default. -/
lemma guardedFlag_default (df : Df) (src dst : String) (f : Cell → Cell)
    (dflt : Cell) (h : hasCol df src = false) :
    guardedFlag df src dst f dflt =
      Except.ok (setCol df dst (List.replicate (nRows df) dflt)) := by
  unfold guardedFlag
  rw [if_neg (by simp [h])]
  rfl

/-- The flag-derivation stage either succeeds — in which case all five
unconditionally-read columns were present — or stops at the first
unguarded read of an absent column with the corresponding `KeyError`.
The five reads happen in the source order of lines 87-90. -/
lemma deriveFlags_first_missing (now : Cell) (df : Df) :
    ((deriveFlags now df).isOk = true ∧
      hasCol df "transaction_id" = true ∧
      hasCol df "transaction_status" = true ∧
      hasCol df "transaction_type" = true ∧
      hasCol df "transaction_at_local" = true ∧
      hasCol df "referral_at_local" = true) ∨
    (∃ c, hasCol df c = false ∧
      deriveFlags now df = Except.error ("KeyError: " ++ c)) := by
  simp only [deriveFlags]
  set B := ensureRewardValue (ensureStatusName df) with hB
  have hB_rv : hasCol B "reward_value" = true := by
    rw [hB]; exact hasCol_ensureRewardValue_self _
  have hB_sn : hasCol B "status_name" = true := by
    rw [hB, hasCol_ensureRewardValue_ne _ _ (by decide)]
    exact hasCol_ensureStatusName_self _
  have hBof : ∀ d : String, (("reward_value" : String) == d) = false →
      (("status_name" : String) == d) = false →
      hasCol B d = hasCol df d := by
    intro d hrd hsd
    rw [hB, hasCol_ensureRewardValue_ne _ _ hrd,
      hasCol_ensureStatusName_ne _ _ hsd]
  obtain ⟨rv, hrv⟩ := getCol_ok_of_hasCol _ _ hB_rv
  rw [hrv]
  simp only [ok_bind]
  set C := setCol B "reward_value" (List.map fillZero rv) with hC
  set D := dtCol (dtCol (dtCol C "referral_at_local")
    "transaction_at_local") "referrer_expiry" with hD
  have hD_eq : ∀ d : String,
      hasCol D d = (("reward_value" : String) == d || hasCol B d) := by
    intro d
    rw [hD, hasCol_dtCol, hasCol_dtCol, hasCol_dtCol, hC, hasCol_setCol]
  have hD_rv : hasCol D "reward_value" = true := by
    rw [hD_eq, hB_rv]; simp
  obtain ⟨rv2, hrv2⟩ := getCol_ok_of_hasCol _ _ hD_rv
  rw [hrv2]
  simp only [ok_bind]
  set E := setCol D "has_reward"
    (List.map (fun c => Cell.boolean (gtZero c)) rv2) with hE
  have hE_sn : hasCol E "status_name" = true := by
    rw [hE, hasCol_setCol, hD_eq, hB_sn]; simp
  obtain ⟨sn, hsn⟩ := getCol_ok_of_hasCol _ _ hE_sn
  rw [hsn]
  simp only [ok_bind]
  set F := setCol E "is_success"
    (List.map (fun c => Cell.boolean (is_success_str (pyStr c))) sn)
    with hF
  set G := setCol F "is_pending_or_failed"
    (List.map (fun c => Cell.boolean (is_pending_or_failed_str (pyStr c)))
      sn) with hG
  have hG_eq : ∀ d : String, hasCol G d =
      (("is_pending_or_failed" : String) == d ||
        (("is_success" : String) == d ||
          (("has_reward" : String) == d || hasCol D d))) := by
    intro d
    rw [hG, hasCol_setCol, hF, hasCol_setCol, hE, hasCol_setCol]
  by_cases h1 : hasCol df "transaction_id" = true
  · have hG_tid : hasCol G "transaction_id" = true := by
      rw [hG_eq, hD_eq, hBof _ (by decide) (by decide), h1]; simp
    obtain ⟨tid, htid⟩ := getCol_ok_of_hasCol _ _ hG_tid
    rw [htid]
    simp only [ok_bind]
    set H1 := setCol G "has_trans_id"
      (List.map (fun c => Cell.boolean (notna c && !(pyStr c == "nan")))
        tid) with hH1
    by_cases h2 : hasCol df "transaction_status" = true
    · have hH1_tst : hasCol H1 "transaction_status" = true := by
        rw [hH1, hasCol_setCol, hG_eq, hD_eq,
          hBof _ (by decide) (by decide), h2]
        simp
      obtain ⟨tst, htst⟩ := getCol_ok_of_hasCol _ _ hH1_tst
      rw [htst]
      simp only [ok_bind]
      set H2 := setCol H1 "is_trans_paid"
        (List.map (fun c => Cell.boolean (upperStr (pyStr c) == "PAID"))
          tst) with hH2
      by_cases h3 : hasCol df "transaction_type" = true
      · have hH2_tty : hasCol H2 "transaction_type" = true := by
          rw [hH2, hasCol_setCol, hH1, hasCol_setCol, hG_eq, hD_eq,
            hBof _ (by decide) (by decide), h3]
          simp
        obtain ⟨tty, htty⟩ := getCol_ok_of_hasCol _ _ hH2_tty
        rw [htty]
        simp only [ok_bind]
        set H3 := setCol H2 "is_trans_new"
          (List.map (fun c => Cell.boolean (upperStr (pyStr c) == "NEW"))
            tty) with hH3
        by_cases h4 : hasCol df "transaction_at_local" = true
        · have hH3_tal : hasCol H3 "transaction_at_local" = true := by
            rw [hH3, hasCol_setCol, hH2, hasCol_setCol, hH1,
              hasCol_setCol, hG_eq, hD_eq,
              hBof _ (by decide) (by decide), h4]
            simp
          obtain ⟨tal, htal⟩ := getCol_ok_of_hasCol _ _ hH3_tal
          rw [htal]
          simp only [ok_bind]
          by_cases h5 : hasCol df "referral_at_local" = true
          · have hH3_ral : hasCol H3 "referral_at_local" = true := by
              rw [hH3, hasCol_setCol, hH2, hasCol_setCol, hH1,
                hasCol_setCol, hG_eq, hD_eq,
                hBof _ (by decide) (by decide), h5]
              simp
            obtain ⟨ral, hral⟩ := getCol_ok_of_hasCol _ _ hH3_ral
            rw [hral]
            simp only [ok_bind]
            obtain ⟨K1, hK1⟩ := guardedFlag_ok
              (setCol (setCol H3 "tx_after_ref"
                  (List.zipWith (fun a b => Cell.boolean (geCell a b))
                    tal ral))
                "same_month"
                (List.zipWith
                  (fun a b =>
                    Cell.boolean (notna a && notna b && sameMonthCell a b))
                  tal ral))
              "referrer_expiry" "is_member_active"
              (fun c => Cell.boolean (geCell c now)) (Cell.boolean false)
            rw [hK1]
            simp only [ok_bind]
            obtain ⟨K2, hK2⟩ := guardedFlag_ok K1 "referrer_deleted"
              "is_account_active"
              (fun c => Cell.boolean ((c == Cell.boolean false) ||
                (lowerStr (pyStr c) == "false"))) (Cell.boolean true)
            rw [hK2]
            simp only [ok_bind]
            obtain ⟨K3, hK3⟩ := guardedFlag_ok K2 "is_reward_granted"
              "is_granted"
              (fun c => Cell.boolean ((c == Cell.boolean true) ||
                (lowerStr (pyStr c) == "true"))) (Cell.boolean false)
            rw [hK3]
            simp only [ok_bind]
            exact Or.inl ⟨rfl, h1, h2, h3, h4, h5⟩
          · have h5f : hasCol df "referral_at_local" = false := by
              simpa using h5
            have hH3_ral_f : hasCol H3 "referral_at_local" = false := by
              rw [hH3, hasCol_setCol, hH2, hasCol_setCol, hH1,
                hasCol_setCol, hG_eq, hD_eq,
                hBof _ (by decide) (by decide), h5f]
              decide
            rw [getCol_error_of_not_hasCol _ _ hH3_ral_f]
            simp only [error_bind]
            exact Or.inr ⟨"referral_at_local", h5f, rfl⟩
        · have h4f : hasCol df "transaction_at_local" = false := by
            simpa using h4
          have hH3_tal_f : hasCol H3 "transaction_at_local" = false := by
            rw [hH3, hasCol_setCol, hH2, hasCol_setCol, hH1,
              hasCol_setCol, hG_eq, hD_eq,
              hBof _ (by decide) (by decide), h4f]
            decide
          rw [getCol_error_of_not_hasCol _ _ hH3_tal_f]
          simp only [error_bind]
          exact Or.inr ⟨"transaction_at_local", h4f, rfl⟩
      · have h3f : hasCol df "transaction_type" = false := by
          simpa using h3
        have hH2_tty_f : hasCol H2 "transaction_type" = false := by
          rw [hH2, hasCol_setCol, hH1, hasCol_setCol, hG_eq, hD_eq,
            hBof _ (by decide) (by decide), h3f]
          decide
        rw [getCol_error_of_not_hasCol _ _ hH2_tty_f]
        simp only [error_bind]
        exact Or.inr ⟨"transaction_type", h3f, rfl⟩
    · have h2f : hasCol df "transaction_status" = false := by
        simpa using h2
      have hH1_tst_f : hasCol H1 "transaction_status" = false := by
        rw [hH1, hasCol_setCol, hG_eq, hD_eq,
          hBof _ (by decide) (by decide), h2f]
        decide
      rw [getCol_error_of_not_hasCol _ _ hH1_tst_f]
      simp only [error_bind]
      exact Or.inr ⟨"transaction_status", h2f, rfl⟩
  · have h1f : hasCol df "transaction_id" = false := by simpa using h1
    have hG_tid_f : hasCol G "transaction_id" = false := by
      rw [hG_eq, hD_eq, hBof _ (by decide) (by decide), h1f]
      decide
    rw [getCol_error_of_not_hasCol _ _ hG_tid_f]
    simp only [error_bind]
    exact Or.inr ⟨"transaction_id", h1f, rfl⟩

/-- C8 (amended): flag derivation defaults only the guarded fields when
their source columns are absent — `status_name` to `"Unknown"`,
`reward_value` to `0`, and the membership/deletion/grant flags to
false/true/false — but the four transaction columns and the referral
timestamp are read unconditionally: the stage completes exactly when
all five are present, and when any of them is missing it raises a
`KeyError` naming a missing column instead of defaulting. -/
theorem derive_flags_guarded_defaults :
    ∀ (now : Cell) (df : Df),
      ((deriveFlags now df).isOk = true ↔
        (hasCol df "transaction_id" = true ∧
         hasCol df "transaction_status" = true ∧
         hasCol df "transaction_type" = true ∧
         hasCol df "transaction_at_local" = true ∧
         hasCol df "referral_at_local" = true)) ∧
      ((hasCol df "transaction_id" = false ∨
        hasCol df "transaction_status" = false ∨
        hasCol df "transaction_type" = false ∨
        hasCol df "transaction_at_local" = false ∨
        hasCol df "referral_at_local" = false) →
        ∃ c, hasCol df c = false ∧
          deriveFlags now df = Except.error ("KeyError: " ++ c)) ∧
      (hasCol df "status_name" = false →
        getCol (ensureStatusName df) "status_name" =
          Except.ok (List.replicate (nRows df) (Cell.str "Unknown"))) ∧
      (hasCol df "reward_value" = false →
        getCol (ensureRewardValue df) "reward_value" =
          Except.ok (List.replicate (nRows df) (Cell.num 0))) ∧
      (hasCol df "referrer_expiry" = false →
        guardedFlag df "referrer_expiry" "is_member_active"
          (fun c => Cell.boolean (geCell c now)) (Cell.boolean false) =
          Except.ok (setCol df "is_member_active"
            (List.replicate (nRows df) (Cell.boolean false)))) ∧
      (hasCol df "referrer_deleted" = false →
        guardedFlag df "referrer_deleted" "is_account_active"
          (fun c => Cell.boolean ((c == Cell.boolean false) ||
            (lowerStr (pyStr c) == "false"))) (Cell.boolean true) =
          Except.ok (setCol df "is_account_active"
            (List.replicate (nRows df) (Cell.boolean true)))) ∧
      (hasCol df "is_reward_granted" = false →
        guardedFlag df "is_reward_granted" "is_granted"
          (fun c => Cell.boolean ((c == Cell.boolean true) ||
            (lowerStr (pyStr c) == "true"))) (Cell.boolean false) =
          Except.ok (setCol df "is_granted"
            (List.replicate (nRows df) (Cell.boolean false)))) := by
  intro now df
  have hmaster := deriveFlags_first_missing now df
  refine ⟨⟨?_, ?_⟩, ?_, ?_, ?_, fun h => guardedFlag_default _ _ _ _ _ h,
    fun h => guardedFlag_default _ _ _ _ _ h,
    fun h => guardedFlag_default _ _ _ _ _ h⟩
  · intro hok
    rcases hmaster with ⟨_, hfive⟩ | ⟨c, _, herr⟩
    · exact hfive
    · rw [herr] at hok
      exact Bool.noConfusion hok
  · rintro ⟨c1, c2, c3, c4, c5⟩
    obtain ⟨r, hr⟩ := deriveFlags_ok now df c1 c2 c3 c4 c5
    rw [hr]; rfl
  · intro hmiss
    rcases hmaster with ⟨_, hfive⟩ | hfound
    · exfalso
      rcases hmiss with h | h | h | h | h <;> simp_all
    · exact hfound
  · intro hs
    unfold ensureStatusName
    rw [if_neg (by simp [hs])]
    exact getCol_setCol_self _ _ _
  · intro hr
    unfold ensureRewardValue
    rw [if_neg (by simp [hr])]
    exact getCol_setCol_self _ _ _

/-- Closed witness for the amended C8 on one-row tables: with the five
unguarded columns present and nothing else, derivation completes and
`status_name` and the grant flag receive their defaults; a table
carrying only `transaction_id` raises a `KeyError` naming a missing
column. -/
theorem derive_flags_guarded_defaults_witness :
    (deriveFlags (Cell.time 2025 10 0)
      [("transaction_id", [Cell.str "T1"]),
       ("transaction_status", [Cell.str "PAID"]),
       ("transaction_type", [Cell.str "NEW"]),
       ("transaction_at_local", [Cell.time 2024 2 500]),
       ("referral_at_local", [Cell.time 2024 2 100])]).isOk = true ∧
    (∃ c, hasCol [("transaction_id", [Cell.str "T1"])] c = false ∧
      deriveFlags (Cell.time 2025 10 0)
        [("transaction_id", [Cell.str "T1"])] =
        Except.error ("KeyError: " ++ c)) ∧
    getCol (ensureStatusName
      [("transaction_id", [Cell.str "T1"]),
       ("transaction_status", [Cell.str "PAID"]),
       ("transaction_type", [Cell.str "NEW"]),
       ("transaction_at_local", [Cell.time 2024 2 500]),
       ("referral_at_local", [Cell.time 2024 2 100])]) "status_name" =
      Except.ok (List.replicate (nRows
        [("transaction_id", [Cell.str "T1"]),
         ("transaction_status", [Cell.str "PAID"]),
         ("transaction_type", [Cell.str "NEW"]),
         ("transaction_at_local", [Cell.time 2024 2 500]),
         ("referral_at_local", [Cell.time 2024 2 100])])
        (Cell.str "Unknown")) ∧
    guardedFlag [("transaction_id", [Cell.str "T1"])] "is_reward_granted"
      "is_granted"
      (fun c => Cell.boolean ((c == Cell.boolean true) ||
        (lowerStr (pyStr c) == "true"))) (Cell.boolean false) =
      Except.ok (setCol [("transaction_id", [Cell.str "T1"])] "is_granted"
        (List.replicate (nRows [("transaction_id", [Cell.str "T1"])])
          (Cell.boolean false))) :=
  ⟨(derive_flags_guarded_defaults (Cell.time 2025 10 0)
      [("transaction_id", [Cell.str "T1"]),
       ("transaction_status", [Cell.str "PAID"]),
       ("transaction_type", [Cell.str "NEW"]),
       ("transaction_at_local", [Cell.time 2024 2 500]),
       ("referral_at_local", [Cell.time 2024 2 100])]).1.mpr
      ⟨by decide, by decide, by decide, by decide, by decide⟩,
   (derive_flags_guarded_defaults (Cell.time 2025 10 0)
      [("transaction_id", [Cell.str "T1"])]).2.1
      (Or.inr (Or.inl (by decide))),
   (derive_flags_guarded_defaults (Cell.time 2025 10 0)
      [("transaction_id", [Cell.str "T1"]),
       ("transaction_status", [Cell.str "PAID"]),
       ("transaction_type", [Cell.str "NEW"]),
       ("transaction_at_local", [Cell.time 2024 2 500]),
       ("referral_at_local", [Cell.time 2024 2 100])]).2.2.1
      (by decide),
   (derive_flags_guarded_defaults (Cell.time 2025 10 0)
      [("transaction_id", [Cell.str "T1"])]).2.2.2.2.2.2
      (by decide)⟩

/-- C8 counterexample: with transaction data absent (no
`transaction_id` column), flag derivation raises `KeyError` at the
unguarded read of line 87 instead of defaulting the derived flag —
exactly the failure the loader of src/time.py line 78 announces with
"Transactions file not found. Fraud logic will fail later." -/
theorem missing_transaction_column_raises :
    deriveFlags (Cell.time 2025 10 0)
      [("referral_at_local", [Cell.time 2024 1 100]),
       ("status_name", [Cell.str "Pending"])] =
      Except.error "KeyError: transaction_id" := by
  rfl

/-- At most one rule fires on any row: firing requires that every
earlier rule fails, so two firing rules would each have to precede the
other. -/
lemma fires_unique (r : Flags) (p q : Fin 8) (hp : fires r p)
    (hq : fires r q) : p = q := by
  rcases lt_trichotomy p q with h | h | h
  · exact absurd hp.1 (by simp [hq.2 p h])
  · exact h
  · exact absurd hq.1 (by simp [hp.2 q h])

/-- The rule selected by `firstMatch` fires: it matches and all earlier
rules fail. -/
lemma fires_firstMatch (r : Flags) : fires r (firstMatch r) := by
  unfold firstMatch fires
  split_ifs with h1 h2 h3 h4 h5 h6 h7 <;>
    refine ⟨by simp_all [ruleMatches], ?_⟩ <;>
    intro j hj <;> fin_cases j <;>
    first
      | exact absurd hj (by decide)
      | simp_all [ruleMatches]

/-- C7: rule evaluation is total and deterministic.  For every
assignment of the eleven flags, exactly one of the eight rules fires
(it matches and no earlier rule matches; the default rule 8 always
matches, so at least one fires), and `check_logic` returns precisely the
verdict attached to that unique firing rule — a definite boolean that
depends only on the flags, so re-evaluating the same row yields the same
verdict. -/
theorem check_logic_total_deterministic :
    ∀ (a b c d e f g h i j k : Bool),
      fires ⟨a, b, c, d, e, f, g, h, i, j, k⟩
        (firstMatch ⟨a, b, c, d, e, f, g, h, i, j, k⟩) ∧
      (∀ p q : Fin 8, fires ⟨a, b, c, d, e, f, g, h, i, j, k⟩ p →
        fires ⟨a, b, c, d, e, f, g, h, i, j, k⟩ q → p = q) ∧
      check_logic ⟨a, b, c, d, e, f, g, h, i, j, k⟩ =
        ruleVerdict (firstMatch ⟨a, b, c, d, e, f, g, h, i, j, k⟩) := by
  intro a b c d e f g h i j k
  refine ⟨fires_firstMatch _, fun p q hp hq => fires_unique _ p q hp hq, ?_⟩
  unfold check_logic firstMatch ruleVerdict
  split_ifs <;> rfl

/-- Closed witness for C7: on the all-false row every non-default rule
fails, so by the uniqueness conjunct the first matching rule is the
default rule 8 (index 7). -/
theorem check_logic_total_deterministic_witness :
    firstMatch ⟨false, false, false, false, false, false, false, false,
      false, false, false⟩ = 7 :=
  (check_logic_total_deterministic false false false false false false
      false false false false false).2.1
    (firstMatch ⟨false, false, false, false, false, false, false, false,
      false, false, false⟩) 7 ⟨by decide, by decide⟩ ⟨by decide, by decide⟩

/-- C10: a rewarded referral is valid only via the perfect path.  With
`has_reward` set, `check_logic` returns `true` exactly when all ten
conjuncts of rule 1 hold (rule 2, the only other VALID rule, requires
`has_reward` to be false). -/
theorem rewarded_valid_iff_perfect_path :
    ∀ (b c d e f g h i j k : Bool),
      check_logic ⟨true, b, c, d, e, f, g, h, i, j, k⟩ = true ↔
        rule1 ⟨true, b, c, d, e, f, g, h, i, j, k⟩ = true := by
  decide

end RefFraud
